import Mathlib

/-!
Verification of the freegin-ai routing, health, catalog and credential core.

Shallow embedding of the Rust sources:
  src/health.rs, src/providers/router.rs, src/providers/mod.rs,
  src/credentials.rs, src/catalog.rs, src/models.rs, plus the adapter
  constructors in src/providers/hugging_face.rs, google.rs, groq.rs and
  friends.

Conventions of the embedding:
  - Wall-clock instants are integers counting seconds (chrono DateTime is
    totally ordered; only ordering and fixed offsets matter here).
    Duration minutes and hours become factors of 60 and 3600.
  - Async database calls become pure functions returning Except; the SQL
    upsert statements become explicit record updates.
  - Randomness (OsRng) becomes an explicit supply of nonce values indexed
    by a counter in the store state.
  - Floating point SQL aggregates (AVG, success rate) are computed in Rat,
    the exact value the SQL expression denotes.
-/

/-- Provider enum from src/providers/mod.rs. -/
inductive Provider where
  | OpenAI
  | Google
  | HuggingFace
  | Anthropic
  | Cohere
  | Groq
  | DeepSeek
  | Together
  | Cloudflare
  | Cerebras
  | Mistral
  | Clarifai
  | GitHubModels
  | OpenRouter
deriving DecidableEq, Repr

/-- Workload enum from src/models.rs. -/
inductive Workload where
  | Chat
  | Summarization
  | Code
  | Extraction
  | Creative
  | Classification
deriving DecidableEq, Repr

/-- AppError from src/error.rs; DbError is carried as its message string. -/
inductive AppError where
  | ConfigError (msg : String)
  | DatabaseError (msg : String)
  | ApiError (msg : String)
  | NetworkError (msg : String)
  | NoProviderAvailable
deriving DecidableEq, Repr

/-- Display string of AppError per the thiserror attributes in src/error.rs. -/
def AppError.toDisplay : AppError → String
  | .ConfigError m => "Configuration error: " ++ m
  | .DatabaseError m => "Database error: " ++ m
  | .ApiError m => "API provider error: " ++ m
  | .NetworkError m => "Network error: " ++ m
  | .NoProviderAvailable =>
      "No available AI provider to handle the request. Run 'freegin-ai status' to check provider health and 'freegin-ai list-services' to verify configuration."

/-- Helper for substring search: does the needle occur as a prefix of any
suffix of the haystack. -/
def containsAux (needle : List Char) : List Char → Bool
  | [] => needle.isPrefixOf []
  | c :: rest => needle.isPrefixOf (c :: rest) || containsAux needle rest

/-- Rust str to_lowercase, as a character list (strings are manipulated as
character lists throughout because the core String.map is not
kernel-reducible). -/
def lowerChars (s : String) : List Char := s.toList.map Char.toLower

/-- Rust str contains, haystack already lowered to a character list. -/
def containsChars (haystack : List Char) (needle : String) : Bool :=
  containsAux needle.toList haystack

/-- Rust str trim on a character list (whitespace off both ends). -/
def trimChars (s : List Char) : List Char :=
  ((s.dropWhile Char.isWhitespace).reverse.dropWhile Char.isWhitespace).reverse

/-- Provider.as_str from src/providers/mod.rs. -/
def Provider.as_str : Provider → String
  | .OpenAI => "openai"
  | .Google => "google"
  | .HuggingFace => "huggingface"
  | .Anthropic => "anthropic"
  | .Cohere => "cohere"
  | .Groq => "groq"
  | .DeepSeek => "deepseek"
  | .Together => "together"
  | .Cloudflare => "cloudflare"
  | .Cerebras => "cerebras"
  | .Mistral => "mistral"
  | .Clarifai => "clarifai"
  | .GitHubModels => "github"
  | .OpenRouter => "openrouter"

/-- Provider.from_alias from src/providers/mod.rs (case-insensitive match on
the lowercased value), over a character list. -/
def Provider.from_alias_chars (value : List Char) : Option Provider :=
  let v := value.map Char.toLower
  if v = "openai".toList ∨ v = "gpt".toList then some .OpenAI
  else if v = "google".toList ∨ v = "gemini".toList then some .Google
  else if v = "huggingface".toList ∨ v = "hugging_face".toList ∨ v = "hf".toList then
    some .HuggingFace
  else if v = "anthropic".toList ∨ v = "claude".toList then some .Anthropic
  else if v = "cohere".toList then some .Cohere
  else if v = "groq".toList then some .Groq
  else if v = "deepseek".toList then some .DeepSeek
  else if v = "together".toList ∨ v = "togetherai".toList ∨ v = "together_ai".toList then
    some .Together
  else if v = "cloudflare".toList ∨ v = "cf".toList ∨ v = "workers".toList
      ∨ v = "workers_ai".toList then some .Cloudflare
  else if v = "cerebras".toList then some .Cerebras
  else if v = "mistral".toList ∨ v = "mistralai".toList ∨ v = "mistral_ai".toList then
    some .Mistral
  else if v = "clarifai".toList then some .Clarifai
  else if v = "github".toList ∨ v = "github_models".toList ∨ v = "githubmodels".toList then
    some .GitHubModels
  else if v = "openrouter".toList ∨ v = "open_router".toList then some .OpenRouter
  else none

/-- Provider.from_alias on a String value. -/
def Provider.from_alias (value : String) : Option Provider :=
  Provider.from_alias_chars value.toList

/-! Health tracking, from src/health.rs. -/

/-- HealthStatus from src/health.rs. -/
inductive HealthStatus where
  | Available
  | Degraded
  | Unavailable
deriving DecidableEq, Repr

/-- ErrorType classification from src/health.rs. -/
inductive ErrorType where
  | RateLimit
  | OutOfCredits
  | AuthFailure
  | ServiceUnavailable
  | Transient
deriving DecidableEq, Repr

/-- classify_error from src/health.rs: first matching pattern group wins. -/
def classify_error (error_msg : String) : ErrorType :=
  let e := lowerChars error_msg
  if containsChars e "rate limit" || containsChars e "too many requests"
      || containsChars e "429" then
    .RateLimit
  else if containsChars e "insufficient credits" || containsChars e "quota exceeded"
      || containsChars e "out of credits" || containsChars e "billing"
      || containsChars e "payment required" || containsChars e "402" then
    .OutOfCredits
  else if containsChars e "unauthorized" || containsChars e "forbidden"
      || containsChars e "invalid api key" || containsChars e "invalid token"
      || containsChars e "authentication failed" || containsChars e "401"
      || containsChars e "403" then
    .AuthFailure
  else if containsChars e "service unavailable" || containsChars e "502"
      || containsChars e "503" || containsChars e "504" || containsChars e "gateway" then
    .ServiceUnavailable
  else
    .Transient

/-- calculate_backoff from src/health.rs: 2 to the power min(cf,6) minutes, capped at 60. -/
def calculate_backoff (consecutive_failures : Int) : Int :=
  let backoff : Int := 2 ^ (min consecutive_failures 6).toNat
  min backoff 60

/-- ProviderHealth row from src/health.rs (timestamps as integer seconds). -/
structure ProviderHealthR where
  provider : Provider
  status : HealthStatus
  last_error : Option String := none
  last_error_at : Option Int := none
  retry_after : Option Int := none
  consecutive_failures : Int := 0
  last_success_at : Option Int := none
deriving DecidableEq, Repr

/-- HealthTracker.record_failure from src/health.rs: classifies the message,
picks status and retry_after, then performs the SQL upsert. The insert path
writes consecutive_failures = 1; the conflict path increments the stored
counter by one and overwrites status, last_error, last_error_at and
retry_after with the new values. Note the source passes the literal 1 to
calculate_backoff on the RateLimit arm. -/
def record_failure (prior : Option ProviderHealthR) (provider : Provider)
    (error_message : String) (now : Int) : ProviderHealthR :=
  let error_type := classify_error error_message
  let sr : HealthStatus × Option Int :=
    match error_type with
    | .RateLimit => (.Degraded, some (now + 60 * calculate_backoff 1))
    | .OutOfCredits => (.Unavailable, some (now + 24 * 3600))
    | .AuthFailure => (.Unavailable, some (now + 24 * 3600))
    | .ServiceUnavailable => (.Degraded, some (now + 5 * 60))
    | .Transient => (.Degraded, some (now + 30))
  { provider := provider
    status := sr.1
    last_error := some error_message
    last_error_at := some now
    retry_after := sr.2
    consecutive_failures :=
      match prior with
      | some h => h.consecutive_failures + 1
      | none => 1
    last_success_at :=
      match prior with
      | some h => h.last_success_at
      | none => none }

/-- HealthTracker.is_available from src/health.rs, with get_health inlined:
a missing row is synthesized as an Available record. -/
def is_available (record : Option ProviderHealthR) (now : Int) : Bool :=
  let health : ProviderHealthR :=
    match record with
    | some h => h
    | none => { provider := .OpenAI, status := .Available }
  match health.status with
  | .Available => true
  | .Degraded =>
      match health.retry_after with
      | some retry_after => now ≥ retry_after
      | none => true
  | .Unavailable =>
      match health.retry_after with
      | some retry_after => now ≥ retry_after
      | none => false

/-! Theorems for C1 and C4. -/

/-- C1: for a provider whose failure is recorded with a RateLimit-classified
message, the spec claims retry_after becomes now plus min(2 ^ min(n,6), 60)
minutes with n the updated consecutive-failure count. The code instead always
passes the literal 1 to calculate_backoff: at a prior record with one
consecutive failure, the updated count is 2, the spec formula demands a
240-second (4-minute) offset, but record_failure stores a 120-second
(2-minute) offset. This theorem evaluates the embedded code at that failing
input and exhibits the divergence. -/
theorem C1_rate_limit_backoff_ignores_count :
    let prior : ProviderHealthR :=
      { provider := .Groq, status := .Degraded, consecutive_failures := 1 }
    let updated := record_failure (some prior) .Groq "HTTP 429" 0
    updated.consecutive_failures = 2
      ∧ classify_error "HTTP 429" = .RateLimit
      ∧ updated.retry_after = some 120
      ∧ 60 * calculate_backoff updated.consecutive_failures = 240
      ∧ some (120 : Int) ≠ some (240 : Int) := by
  refine ⟨by decide, by decide, by decide, by decide, by decide⟩

/-- C4: is_available is true exactly when the record is absent, or its status
is available, or its retry_after is set and now has reached it, or its status
is degraded with no retry_after; in particular unavailable with no
retry_after is not available. -/
theorem C4_is_available_iff (record : Option ProviderHealthR) (now : Int) :
    is_available record now = true ↔
      (record = none
        ∨ (∃ h, record = some h ∧ h.status = .Available)
        ∨ (∃ h t, record = some h ∧ h.retry_after = some t ∧ now ≥ t)
        ∨ (∃ h, record = some h ∧ h.status = .Degraded ∧ h.retry_after = none)) := by
  cases record with
  | none => simp [is_available]
  | some h =>
      cases hs : h.status <;> cases hr : h.retry_after <;>
        simp [is_available, hs, hr]

/-- Witness for C4: an unavailable record whose retry_after has elapsed is
available again. -/
theorem C4_is_available_iff_witness :
    is_available
      (some { provider := .Groq, status := .Unavailable, retry_after := some 5 }) 7 = true :=
  (C4_is_available_iff
      (some { provider := .Groq, status := .Unavailable, retry_after := some 5 }) 7).mpr
    (Or.inr (Or.inr (Or.inl ⟨_, 5, rfl, rfl, by decide⟩)))

/-! Request and response model, from src/models.rs. -/

/-- RequestComplexity from src/models.rs. -/
inductive RequestComplexity where
  | Low
  | Medium
  | High
deriving DecidableEq, Repr

/-- RequestQuality from src/models.rs. -/
inductive RequestQuality where
  | Standard
  | Balanced
  | Premium
deriving DecidableEq, Repr

/-- RequestSpeed from src/models.rs. -/
inductive RequestSpeed where
  | Fast
  | Normal
deriving DecidableEq, Repr

/-- RequestGuardrail from src/models.rs. -/
inductive RequestGuardrail where
  | Strict
  | Lenient
deriving DecidableEq, Repr

/-- ResponseFormat from src/models.rs. -/
inductive ResponseFormat where
  | Text
  | Markdown
  | Json
deriving DecidableEq, Repr

/-- RequestHints from src/models.rs; every field defaults to none. -/
structure RequestHints where
  complexity : Option RequestComplexity := none
  quality : Option RequestQuality := none
  speed : Option RequestSpeed := none
  guardrail : Option RequestGuardrail := none
  response_format : Option ResponseFormat := none
  provider : Option String := none
  workload : Option Workload := none
deriving DecidableEq, Repr

/-- AIRequest from src/models.rs (metadata as an association list). -/
structure AIRequest where
  model : String
  prompt : String
  tags : List String := []
  context : List String := []
  metadata : List (String × String) := []
  hints : RequestHints := {}
deriving DecidableEq, Repr

/-- AIResponse from src/models.rs. -/
structure AIResponse where
  content : String
  provider : Provider
deriving DecidableEq, Repr

/-- ModelEntry from src/catalog.rs (timestamps kept as strings). -/
structure ModelEntry where
  provider : Provider
  workload : Workload
  model : String
  status : String
  priority : Int
  rationale : Option String := none
  metadata : Option String := none
  created_at : String := ""
  updated_at : String := ""
deriving DecidableEq, Repr

/-! The router, from src/providers/router.rs. An adapter is its Generate
method; the optional collaborators (UsageLogger, CatalogStore active_models,
HealthTracker) are modelled as the functions the walk calls on them, each
returning Except as the corresponding Rust method does. -/

/-- Adapter capability: the single Generate method of the AIProvider trait. -/
def Adapter := AIRequest → Except AppError AIResponse

/-- HealthTracker handle as used by the router walk: the three methods the
walk invokes, with their fallible results. -/
structure HealthEnv where
  avail : Provider → Except AppError Bool
  rec_success : Provider → Except AppError Unit
  rec_failure : Provider → String → Except AppError Unit

/-- UsageLogger handle as used by the router walk: the log method with the
arguments the router passes (provider, model, success, latency placeholder,
error message). -/
structure UsageEnv where
  log : Provider → Option String → Bool → Int → Option String → Except AppError Unit

/-- ProviderRouter state: the adapter map, the registration (fallback) order
and the optional collaborators. The catalog field is the active_models query
of CatalogStore. -/
structure RouterEnv where
  providers : Provider → Option Adapter
  fallback_order : List Provider
  usage_logger : Option UsageEnv := none
  catalog : Option (Provider → Option Workload → Except AppError (List ModelEntry)) := none
  health_tracker : Option HealthEnv := none

/-- provider_from_hints from src/providers/router.rs: resolve the hint alias
and keep it only when registered. -/
def provider_from_hints (env : RouterEnv) (req : AIRequest) : Option Provider :=
  match req.hints.provider with
  | none => none
  | some a =>
      match Provider.from_alias a with
      | none => none
      | some p => if (env.providers p).isSome then some p else none

/-- Loop body of provider_from_tags: first tag of the form provider:alias
whose alias resolves to a registered provider; unresolvable or unregistered
matches fall through to later tags. -/
def provider_from_tags_go (env : RouterEnv) : List String → Option Provider
  | [] => none
  | tag :: rest =>
      if "provider:".toList.isPrefixOf tag.toList then
        match Provider.from_alias_chars (trimChars (tag.toList.drop 9)) with
        | some p =>
            if (env.providers p).isSome then some p else provider_from_tags_go env rest
        | none => provider_from_tags_go env rest
      else provider_from_tags_go env rest

/-- provider_from_tags from src/providers/router.rs. -/
def provider_from_tags (env : RouterEnv) (req : AIRequest) : Option Provider :=
  provider_from_tags_go env req.tags

/-- provider_from_model from src/providers/router.rs: ordered substring
checks on the lowercased model, each guarded by registration; no match
yields none. -/
def provider_from_model (env : RouterEnv) (req : AIRequest) : Option Provider :=
  let model := lowerChars req.model
  if containsChars model "gemini" && (env.providers .Google).isSome then
    some .Google
  else if containsChars model "gpt" && (env.providers .OpenAI).isSome then
    some .OpenAI
  else if containsChars model "claude" && (env.providers .Anthropic).isSome then
    some .Anthropic
  else if containsChars model "cohere" && (env.providers .Cohere).isSome then
    some .Cohere
  else if containsChars model "deepseek" && (env.providers .DeepSeek).isSome then
    some .DeepSeek
  else if containsChars model "llama" && containsChars model "groq"
      && (env.providers .Groq).isSome then
    some .Groq
  else none

/-- hint_preferred_providers from src/providers/router.rs: HuggingFace for
premium quality or high complexity, then Google for fast speed, each only
when registered. -/
def hint_preferred_providers (env : RouterEnv) (req : AIRequest) : List Provider :=
  let picks : List Provider := []
  let picks :=
    if (req.hints.quality = some .Premium ∨ req.hints.complexity = some .High)
        ∧ (env.providers .HuggingFace).isSome = true then
      picks ++ [Provider.HuggingFace]
    else picks
  let picks :=
    if req.hints.speed = some .Fast ∧ (env.providers .Google).isSome = true then
      picks ++ [Provider.Google]
    else picks
  picks

/-- Loop body of select_candidates: the seen set (first component) and the
ordered output (second component); a candidate is appended only when not yet
seen. -/
def insertCand (st : List Provider × List Provider) (p : Provider) :
    List Provider × List Provider :=
  if p ∈ st.1 then st else (p :: st.1, st.2 ++ [p])

/-- Option to singleton-or-empty list, for the single-provider sources. -/
def optList : Option Provider → List Provider
  | some p => [p]
  | none => []

/-- select_candidates from src/providers/router.rs: fold the insert step over
the sources in priority order (hint, tag, model heuristic, hint-preferred,
fallback order). -/
def select_candidates (env : RouterEnv) (req : AIRequest) : List Provider :=
  (List.foldl insertCand ([], [])
    (optList (provider_from_hints env req)
      ++ optList (provider_from_tags env req)
      ++ optList (provider_from_model env req)
      ++ hint_preferred_providers env req
      ++ env.fallback_order)).2

/-- pick_model from src/providers/router.rs: a non-empty request model is
used as is; otherwise the first active catalog entry for the provider and
hinted workload; otherwise none. Catalog query errors propagate. -/
def pick_model (env : RouterEnv) (provider : Provider) (req : AIRequest) :
    Except AppError (Option String) :=
  if req.model = "" then
    match env.catalog with
    | some catalog =>
        match catalog provider req.hints.workload with
        | .error e => .error e
        | .ok models =>
            match models.head? with
            | some entry => .ok (some entry.model)
            | none => .ok none
    | none => .ok none
  else .ok (some req.model)

/-- Health gate step of the walk in generate: skip when is_available returns
Ok false; proceed on Ok true and also when the probe itself errors (the
router logs a warning and continues). Absent tracker means no gate. -/
def health_gate (env : RouterEnv) (p : Provider) : Bool :=
  match env.health_tracker with
  | none => true
  | some h =>
      match h.avail p with
      | .ok b => b
      | .error _ => true

/-- Model auto-fill step of the walk in generate: clone the request and, when
its model is empty, fill in the pick_model result; the question-mark operator
on pick_model surfaces its error. -/
def route_request (env : RouterEnv) (p : Provider) (req : AIRequest) :
    Except AppError AIRequest :=
  if req.model = "" then
    match pick_model env p req with
    | .error e => .error e
    | .ok (some m) => .ok { req with model := m }
    | .ok none => .ok req
  else .ok req

/-- Fallback walk of ProviderRouter.generate over a candidate list. The
second component is the trace of providers whose adapter Generate was
invoked, in order. Bookkeeping results (record_success, record_failure,
usage log) are bound and discarded exactly as the source logs and swallows
them; the latency argument is a placeholder 0 since wall-clock elapsed time
is not modelled. -/
def walk (env : RouterEnv) (req : AIRequest) :
    List Provider → Except AppError AIResponse × List Provider
  | [] => (.error .NoProviderAvailable, [])
  | p :: rest =>
      if health_gate env p = false then walk env req rest
      else
        match env.providers p with
        | none => walk env req rest
        | some client =>
            match route_request env p req with
            | .error e => (.error e, [])
            | .ok routed =>
                match client routed with
                | .ok response =>
                    let _hb :=
                      match env.health_tracker with
                      | some h => h.rec_success p
                      | none => .ok ()
                    let _ub :=
                      match env.usage_logger with
                      | some u => u.log p (some routed.model) true 0 none
                      | none => .ok ()
                    (.ok response, [p])
                | .error err =>
                    let _hb :=
                      match env.health_tracker with
                      | some h => h.rec_failure p err.toDisplay
                      | none => .ok ()
                    let _ub :=
                      match env.usage_logger with
                      | some u => u.log p (some routed.model) false 0 (some err.toDisplay)
                      | none => .ok ()
                    let r := walk env req rest
                    (r.1, p :: r.2)

/-- ProviderRouter.generate from src/providers/router.rs: walk the selected
candidates; an exhausted walk is NoProviderAvailable. The trace of invoked
adapters is returned alongside for the invocation-order properties. -/
def generate (env : RouterEnv) (req : AIRequest) :
    Except AppError AIResponse × List Provider :=
  walk env req (select_candidates env req)

/-! Candidate-selection theorems. -/

/-- First-occurrence deduplication relative to an already-seen set, the
specification reading of the seen-set insertion loop. -/
def dedupFirst (seen : List Provider) : List Provider → List Provider
  | [] => []
  | p :: ps => if p ∈ seen then dedupFirst seen ps else p :: dedupFirst (p :: seen) ps

/-- Candidate list as the specification words it: concatenate the sources in
priority order (provider hint, first resolvable provider tag, model-name
heuristic, hint-preferred providers, registration order) and keep the first
occurrence of each provider. -/
def selectCandidatesSpec (env : RouterEnv) (req : AIRequest) : List Provider :=
  dedupFirst []
    (optList (provider_from_hints env req)
      ++ optList (provider_from_tags env req)
      ++ optList (provider_from_model env req)
      ++ hint_preferred_providers env req
      ++ env.fallback_order)

theorem foldl_insertCand (l : List Provider) :
    ∀ seen out, (List.foldl insertCand (seen, out) l).2 = out ++ dedupFirst seen l := by
  induction l with
  | nil => intro seen out; simp [dedupFirst]
  | cons p ps ih =>
      intro seen out
      by_cases h : p ∈ seen
      · simp [insertCand, dedupFirst, h, ih]
      · simp [insertCand, dedupFirst, h, ih]

theorem dedupFirst_nodup (l : List Provider) :
    ∀ seen, (dedupFirst seen l).Nodup ∧ ∀ p ∈ dedupFirst seen l, p ∉ seen := by
  induction l with
  | nil => intro seen; simp [dedupFirst]
  | cons p ps ih =>
      intro seen
      by_cases h : p ∈ seen
      · simpa [dedupFirst, h] using ih seen
      · have h2 := ih (p :: seen)
        refine ⟨?_, ?_⟩
        · simp only [dedupFirst, if_neg h, List.nodup_cons]
          exact ⟨fun hmem => (h2.2 p hmem) (by simp), h2.1⟩
        · intro q hq
          simp only [dedupFirst, if_neg h, List.mem_cons] at hq
          rcases hq with rfl | hq
          · exact h
          · exact fun hqs => (h2.2 q hq) (List.mem_cons_of_mem p hqs)

theorem select_candidates_eq_dedup (env : RouterEnv) (req : AIRequest) :
    select_candidates env req = selectCandidatesSpec env req := by
  unfold select_candidates selectCandidatesSpec
  rw [foldl_insertCand]
  simp

/-- C3: the candidate list equals the deduplicated priority-ordered
concatenation of the sources, and it contains no duplicates, so a provider
contributed by a higher-priority source never reappears later. -/
theorem C3_select_candidates_priority_dedup (env : RouterEnv) (req : AIRequest) :
    select_candidates env req = selectCandidatesSpec env req
      ∧ (select_candidates env req).Nodup :=
  ⟨select_candidates_eq_dedup env req,
    (select_candidates_eq_dedup env req) ▸ (dedupFirst_nodup _ []).1⟩

theorem dedupFirst_eq_self (l : List Provider) (hnd : l.Nodup) :
    ∀ seen, (∀ p ∈ l, p ∉ seen) → dedupFirst seen l = l := by
  induction l with
  | nil => intro seen _; rfl
  | cons p ps ih =>
      intro seen hdisj
      have hp : p ∉ seen := hdisj p (by simp)
      have hps : ∀ q ∈ ps, q ∉ p :: seen := by
        intro q hq
        simp only [List.mem_cons]
        rintro (rfl | hqs)
        · exact (List.nodup_cons.mp hnd).1 hq
        · exact hdisj q (List.mem_cons_of_mem p hq) hqs
      simp [dedupFirst, hp, ih (List.nodup_cons.mp hnd).2 (p :: seen) hps]

theorem walk_all_fail (env : RouterEnv) (req : AIRequest) (l : List Provider)
    (hgate : ∀ p ∈ l, health_gate env p = true)
    (hcl : ∀ p ∈ l, ∃ a, env.providers p = some a ∧ ∀ r, ∃ e, a r = .error e)
    (hroute : ∀ p ∈ l, ∃ r, route_request env p req = .ok r) :
    walk env req l = (.error .NoProviderAvailable, l) := by
  induction l with
  | nil => rfl
  | cons p ps ih =>
      obtain ⟨a, ha, hfail⟩ := hcl p (by simp)
      obtain ⟨r, hr⟩ := hroute p (by simp)
      obtain ⟨e, he⟩ := hfail r
      have hg := hgate p (by simp)
      have ihp := ih (fun q hq => hgate q (by simp [hq]))
        (fun q hq => hcl q (by simp [hq])) (fun q hq => hroute q (by simp [hq]))
      simp [walk, hg, ha, hr, he, ihp]

/-- C2: when no hint, tag or model heuristic contributes a candidate and no
hint-preferred provider applies, every fallback provider passes the health
gate, is registered, resolves its routed request, and its adapter fails,
generate returns NoProviderAvailable and the adapters were invoked exactly
once each, in registration order. -/
theorem C2_fallback_exhaustion (env : RouterEnv) (req : AIRequest)
    (hhints : provider_from_hints env req = none)
    (htags : provider_from_tags env req = none)
    (hmodel : provider_from_model env req = none)
    (hpref : hint_preferred_providers env req = [])
    (hnodup : env.fallback_order.Nodup)
    (hgate : ∀ p ∈ env.fallback_order, health_gate env p = true)
    (hcl : ∀ p ∈ env.fallback_order,
      ∃ a, env.providers p = some a ∧ ∀ r, ∃ e, a r = .error e)
    (hroute : ∀ p ∈ env.fallback_order, ∃ r, route_request env p req = .ok r) :
    generate env req = (.error .NoProviderAvailable, env.fallback_order) := by
  have hsel : select_candidates env req = env.fallback_order := by
    rw [select_candidates_eq_dedup env req]
    unfold selectCandidatesSpec
    rw [hhints, htags, hmodel, hpref]
    simp only [optList, List.nil_append]
    exact dedupFirst_eq_self env.fallback_order hnodup [] (by simp)
  rw [generate, hsel]
  exact walk_all_fail env req env.fallback_order hgate hcl hroute

/-- Adapter that always fails, for the exhaustion scenario. -/
def failingAdapter : Adapter := fun _ => .error (.ApiError "boom")

/-- Router with two always-failing registered adapters in registration order
HuggingFace then Google, no collaborators. -/
def envC2 : RouterEnv :=
  { providers := fun p =>
      match p with
      | .HuggingFace => some failingAdapter
      | .Google => some failingAdapter
      | _ => none
    fallback_order := [.HuggingFace, .Google] }

/-- Plain request with a model name that matches no heuristic. -/
def reqC2 : AIRequest := { model := "plain", prompt := "Hello" }

/-- Witness for C2: the concrete two-adapter scenario of the spec. -/
theorem C2_fallback_exhaustion_witness :
    generate envC2 reqC2
      = (.error .NoProviderAvailable, [Provider.HuggingFace, Provider.Google]) := by
  refine C2_fallback_exhaustion envC2 reqC2 rfl rfl (by decide) rfl (by decide)
    (fun p _ => rfl) ?_ (fun p _ => ⟨reqC2, rfl⟩)
  intro p hp
  have hp2 : p = Provider.HuggingFace ∨ p = Provider.Google := by
    simpa [envC2] using hp
  rcases hp2 with rfl | rfl
  · exact ⟨failingAdapter, rfl, fun r => ⟨.ApiError "boom", rfl⟩⟩
  · exact ⟨failingAdapter, rfl, fun r => ⟨.ApiError "boom", rfl⟩⟩

/-! Bookkeeping-error invariance (C7). -/

/-- Replace the fallible bookkeeping writers (health record_success and
record_failure, usage log) of a router by arbitrary other ones, leaving the
availability probe, adapters, catalog and order unchanged. -/
def set_bookkeeping (env : RouterEnv)
    (rs : Provider → Except AppError Unit)
    (rf : Provider → String → Except AppError Unit)
    (lg : Provider → Option String → Bool → Int → Option String → Except AppError Unit) :
    RouterEnv :=
  { env with
    health_tracker :=
      env.health_tracker.map (fun h => { h with rec_success := rs, rec_failure := rf })
    usage_logger := env.usage_logger.map (fun u => { u with log := lg }) }

theorem walk_bookkeeping_invariant (env : RouterEnv) (req : AIRequest)
    (rs : Provider → Except AppError Unit)
    (rf : Provider → String → Except AppError Unit)
    (lg : Provider → Option String → Bool → Int → Option String → Except AppError Unit) :
    ∀ l, walk (set_bookkeeping env rs rf lg) req l = walk env req l := by
  intro l
  induction l with
  | nil => rfl
  | cons p ps ih =>
      have hgate : health_gate (set_bookkeeping env rs rf lg) p = health_gate env p := by
        unfold health_gate set_bookkeeping
        cases env.health_tracker <;> simp
      have hprov : (set_bookkeeping env rs rf lg).providers = env.providers := rfl
      have hroute : route_request (set_bookkeeping env rs rf lg) p req
          = route_request env p req := rfl
      cases hgv : health_gate env p with
      | false => simp [walk, hgate, hgv, ih]
      | true =>
          cases hcl : env.providers p with
          | none => simp [walk, hgate, hgv, hprov, hcl, ih]
          | some client =>
              cases hrt : route_request env p req with
              | error e => simp [walk, hgate, hgv, hprov, hcl, hroute, hrt]
              | ok routed =>
                  cases hresp : client routed with
                  | ok response =>
                      simp [walk, hgate, hgv, hprov, hcl, hroute, hrt, hresp]
                  | error err =>
                      simp [walk, hgate, hgv, hprov, hcl, hroute, hrt, hresp, ih]

theorem provider_from_hints_proj (env2 env : RouterEnv)
    (hp : env2.providers = env.providers) (req : AIRequest) :
    provider_from_hints env2 req = provider_from_hints env req := by
  simp only [provider_from_hints, hp]

theorem provider_from_tags_go_proj (env2 env : RouterEnv)
    (hp : env2.providers = env.providers) :
    ∀ ts, provider_from_tags_go env2 ts = provider_from_tags_go env ts := by
  intro ts
  induction ts with
  | nil => rfl
  | cons t rest ih => simp only [provider_from_tags_go, hp, ih]

theorem provider_from_model_proj (env2 env : RouterEnv)
    (hp : env2.providers = env.providers) (req : AIRequest) :
    provider_from_model env2 req = provider_from_model env req := by
  simp only [provider_from_model, hp]

theorem hint_preferred_providers_proj (env2 env : RouterEnv)
    (hp : env2.providers = env.providers) (req : AIRequest) :
    hint_preferred_providers env2 req = hint_preferred_providers env req := by
  simp only [hint_preferred_providers, hp]

theorem select_candidates_proj (env2 env : RouterEnv)
    (hp : env2.providers = env.providers)
    (hf : env2.fallback_order = env.fallback_order) (req : AIRequest) :
    select_candidates env2 req = select_candidates env req := by
  have ht : provider_from_tags env2 req = provider_from_tags env req :=
    provider_from_tags_go_proj env2 env hp req.tags
  unfold select_candidates
  rw [provider_from_hints_proj env2 env hp req, hf, ht,
    provider_from_model_proj env2 env hp req,
    hint_preferred_providers_proj env2 env hp req]

/-- C7: bookkeeping failures are never surfaced: the outcome and the
invocation trace of generate are unchanged under any replacement of the
record_success, record_failure and usage-log writers, so a successful
adapter call still returns its response and a failed one still continues the
walk, whatever those writers return. -/
theorem C7_bookkeeping_errors_swallowed (env : RouterEnv) (req : AIRequest)
    (rs : Provider → Except AppError Unit)
    (rf : Provider → String → Except AppError Unit)
    (lg : Provider → Option String → Bool → Int → Option String → Except AppError Unit) :
    generate (set_bookkeeping env rs rf lg) req = generate env req := by
  have hsel : select_candidates (set_bookkeeping env rs rf lg) req
      = select_candidates env req :=
    select_candidates_proj (set_bookkeeping env rs rf lg) env rfl rfl req
  rw [generate, generate, hsel, walk_bookkeeping_invariant]

/-! Model-name heuristic (C6). -/

/-- Router with Google and OpenAI registered, for the heuristic theorems. -/
def envC6 : RouterEnv :=
  { providers := fun p =>
      match p with
      | .Google => some failingAdapter
      | .OpenAI => some failingAdapter
      | _ => none
    fallback_order := [.Google, .OpenAI] }

/-- Request whose model contains both the gemini and the gpt patterns. -/
def reqC6 : AIRequest := { model := "gemini-gpt", prompt := "x" }

/-- C6 counterexample: the claim reads the heuristic as simultaneous
per-substring rules, so a model containing gpt with OpenAI registered would
select OpenAI; on the model gemini-gpt with both Google and OpenAI
registered the code selects Google, because the checks run in a fixed order
and gemini is tested first. -/
theorem C6_counterexample_ordered_match :
    provider_from_model envC6 reqC6 = some Provider.Google
      ∧ containsChars (lowerChars reqC6.model) "gpt" = true
      ∧ (envC6.providers Provider.OpenAI).isSome = true
      ∧ some Provider.Google ≠ some Provider.OpenAI :=
  ⟨rfl, rfl, rfl, by decide⟩

/-- C6 amended: the heuristic tries the substring patterns in the fixed
order gemini, gpt, claude, cohere, deepseek, llama-and-groq on the lowercased
model, each also requiring its provider to be registered; the first passing
check wins, and when no check passes (vendor-prefixed names, a bare slash,
anything else) no provider is selected. -/
theorem C6_model_heuristic_first_match (env : RouterEnv) (req : AIRequest) :
    ((containsChars (lowerChars req.model) "gemini" && (env.providers .Google).isSome) = true →
      provider_from_model env req = some .Google)
    ∧ ((containsChars (lowerChars req.model) "gemini" && (env.providers .Google).isSome) = false →
        (containsChars (lowerChars req.model) "gpt" && (env.providers .OpenAI).isSome) = true →
        provider_from_model env req = some .OpenAI)
    ∧ ((containsChars (lowerChars req.model) "gemini" && (env.providers .Google).isSome) = false →
        (containsChars (lowerChars req.model) "gpt" && (env.providers .OpenAI).isSome) = false →
        (containsChars (lowerChars req.model) "claude" && (env.providers .Anthropic).isSome) = true →
        provider_from_model env req = some .Anthropic)
    ∧ ((containsChars (lowerChars req.model) "gemini" && (env.providers .Google).isSome) = false →
        (containsChars (lowerChars req.model) "gpt" && (env.providers .OpenAI).isSome) = false →
        (containsChars (lowerChars req.model) "claude" && (env.providers .Anthropic).isSome) = false →
        (containsChars (lowerChars req.model) "cohere" && (env.providers .Cohere).isSome) = true →
        provider_from_model env req = some .Cohere)
    ∧ ((containsChars (lowerChars req.model) "gemini" && (env.providers .Google).isSome) = false →
        (containsChars (lowerChars req.model) "gpt" && (env.providers .OpenAI).isSome) = false →
        (containsChars (lowerChars req.model) "claude" && (env.providers .Anthropic).isSome) = false →
        (containsChars (lowerChars req.model) "cohere" && (env.providers .Cohere).isSome) = false →
        (containsChars (lowerChars req.model) "deepseek" && (env.providers .DeepSeek).isSome) = true →
        provider_from_model env req = some .DeepSeek)
    ∧ ((containsChars (lowerChars req.model) "gemini" && (env.providers .Google).isSome) = false →
        (containsChars (lowerChars req.model) "gpt" && (env.providers .OpenAI).isSome) = false →
        (containsChars (lowerChars req.model) "claude" && (env.providers .Anthropic).isSome) = false →
        (containsChars (lowerChars req.model) "cohere" && (env.providers .Cohere).isSome) = false →
        (containsChars (lowerChars req.model) "deepseek" && (env.providers .DeepSeek).isSome) = false →
        (containsChars (lowerChars req.model) "llama" && containsChars (lowerChars req.model) "groq"
          && (env.providers .Groq).isSome) = true →
        provider_from_model env req = some .Groq)
    ∧ ((containsChars (lowerChars req.model) "gemini" && (env.providers .Google).isSome) = false →
        (containsChars (lowerChars req.model) "gpt" && (env.providers .OpenAI).isSome) = false →
        (containsChars (lowerChars req.model) "claude" && (env.providers .Anthropic).isSome) = false →
        (containsChars (lowerChars req.model) "cohere" && (env.providers .Cohere).isSome) = false →
        (containsChars (lowerChars req.model) "deepseek" && (env.providers .DeepSeek).isSome) = false →
        (containsChars (lowerChars req.model) "llama" && containsChars (lowerChars req.model) "groq"
          && (env.providers .Groq).isSome) = false →
        provider_from_model env req = none) := by
  refine ⟨?_, ?_, ?_, ?_, ?_, ?_, ?_⟩ <;>
    { intros
      simp only [provider_from_model]
      simp [*] }

/-- Witness for C6 amended: a vendor-prefixed Llama identifier matches no
pattern, so the heuristic yields none even with providers registered. -/
theorem C6_model_heuristic_first_match_witness :
    provider_from_model envC6
      { model := "meta-llama/Llama-3.3-70B-Instruct-Turbo-Free", prompt := "x" } = none :=
  (C6_model_heuristic_first_match envC6
      { model := "meta-llama/Llama-3.3-70B-Instruct-Turbo-Free", prompt := "x" }).2.2.2.2.2.2
    rfl rfl rfl rfl rfl rfl

/-! Catalog-lookup errors surface (C10). -/

/-- C10: when the first candidate passes the health gate and is registered
but the request model is empty and the catalog active_models query fails with
a DatabaseError, generate surfaces that error at once: no adapter is invoked
and the walk is abandoned. -/
theorem C10_catalog_error_surfaces (env : RouterEnv) (req : AIRequest)
    (p : Provider) (rest : List Provider) (msg : String)
    (cat : Provider → Option Workload → Except AppError (List ModelEntry))
    (hsel : select_candidates env req = p :: rest)
    (hgate : health_gate env p = true)
    (hreg : (env.providers p).isSome = true)
    (hmodel : req.model = "")
    (hcat : env.catalog = some cat)
    (herr : cat p req.hints.workload = .error (.DatabaseError msg)) :
    generate env req = (.error (.DatabaseError msg), []) := by
  obtain ⟨a, ha⟩ := Option.isSome_iff_exists.mp hreg
  have hroute : route_request env p req = .error (.DatabaseError msg) := by
    simp [route_request, pick_model, hmodel, hcat, herr]
  rw [generate, hsel]
  simp [walk, hgate, ha, hroute]

/-- Failing catalog used by the C10 witness. -/
def catC10 : Provider → Option Workload → Except AppError (List ModelEntry) :=
  fun _ _ => .error (.DatabaseError "db down")

/-- Router with one registered provider and a failing catalog. -/
def envC10 : RouterEnv :=
  { providers := fun p =>
      match p with
      | .Groq => some failingAdapter
      | _ => none
    fallback_order := [.Groq]
    catalog := some catC10 }

/-- Witness for C10: the empty-model request against the failing catalog. -/
theorem C10_catalog_error_surfaces_witness :
    generate envC10 { model := "", prompt := "x" }
      = (.error (.DatabaseError "db down"), []) :=
  C10_catalog_error_surfaces envC10 { model := "", prompt := "x" } .Groq [] "db down"
    catC10 rfl rfl rfl rfl rfl rfl

/-! Credential store, from src/credentials.rs. -/

/-- Row of provider_credentials: nonce and ciphertext byte vectors plus
timestamps. -/
structure CredRecord where
  nonce : List Nat
  ciphertext : List Nat
  created_at : Int
  updated_at : Int
deriving DecidableEq, Repr

/-- The XChaCha20-Poly1305 AEAD of the chacha20poly1305 crate, abstracted to
its interface under the fixed loaded master key: encryption of a token under
a nonce, and authenticated decryption that can reject. Plaintexts are kept
as strings because set_token encrypts the bytes of a UTF-8 token and
get_token re-validates UTF-8 on the way out. -/
structure Aead where
  encrypt : List Nat → String → List Nat
  decrypt : List Nat → List Nat → Option String

/-- CredentialStore state: the provider_credentials table plus the OsRng
nonce supply, modelled as a stream of draws with a cursor that advances on
every draw. -/
structure CredState where
  db : Provider → Option CredRecord
  rng : Nat → List Nat
  rngIdx : Nat

/-- CredentialStore.set_token from src/credentials.rs: fill a fresh nonce
from the random supply, encrypt the token, then upsert; the conflict path
overwrites nonce, ciphertext and updated_at and keeps created_at. -/
def set_token (cipher : Aead) (st : CredState) (provider : Provider) (token : String)
    (now : Int) : CredState :=
  let nonce_bytes := st.rng st.rngIdx
  let ciphertext := cipher.encrypt nonce_bytes token
  let record : CredRecord :=
    match st.db provider with
    | some old =>
        { nonce := nonce_bytes, ciphertext := ciphertext
          created_at := old.created_at, updated_at := now }
    | none =>
        { nonce := nonce_bytes, ciphertext := ciphertext
          created_at := now, updated_at := now }
  { db := fun q => if q = provider then some record else st.db q
    rng := st.rng
    rngIdx := st.rngIdx + 1 }

/-- CredentialStore.get_token from src/credentials.rs: fetch the row (absent
row is Ok none), decrypt with the stored nonce (an AEAD reject becomes the
ApiError), and return the token. -/
def get_token (cipher : Aead) (st : CredState) (provider : Provider) :
    Except AppError (Option String) :=
  match st.db provider with
  | none => .ok none
  | some record =>
      match cipher.decrypt record.nonce record.ciphertext with
      | none => .error (.ApiError "Failed to decrypt credential")
      | some token => .ok (some token)

/-- C5: under AEAD correctness and distinct successive random draws, a Set
followed by Get returns the token, and each Set stores the freshly drawn
nonce (first and second draws respectively), so two successive Set calls for
the same provider store distinct nonces rather than reusing the stored one. -/
theorem C5_credential_roundtrip_fresh_nonce (cipher : Aead) (st : CredState)
    (p : Provider) (token : String) (now now2 : Int)
    (hdec : ∀ n m, cipher.decrypt n (cipher.encrypt n m) = some m)
    (hfresh : st.rng st.rngIdx ≠ st.rng (st.rngIdx + 1)) :
    get_token cipher (set_token cipher st p token now) p = .ok (some token)
      ∧ ((set_token cipher st p token now).db p).map CredRecord.nonce
          = some (st.rng st.rngIdx)
      ∧ ((set_token cipher (set_token cipher st p token now) p token now2).db p).map
          CredRecord.nonce = some (st.rng (st.rngIdx + 1))
      ∧ ((set_token cipher (set_token cipher st p token now) p token now2).db p).map
          CredRecord.nonce ≠ ((set_token cipher st p token now).db p).map CredRecord.nonce := by
  have h1 : ((set_token cipher st p token now).db p).map CredRecord.nonce
      = some (st.rng st.rngIdx) := by
    cases hdb : st.db p <;> simp [set_token, hdb]
  have hget : get_token cipher (set_token cipher st p token now) p = .ok (some token) := by
    cases hdb : st.db p <;> simp [get_token, set_token, hdb, hdec]
  have h2 : ((set_token cipher (set_token cipher st p token now) p token now2).db p).map
      CredRecord.nonce = some (st.rng (st.rngIdx + 1)) := by
    cases hdb : st.db p <;> simp [set_token, hdb]
  refine ⟨hget, h1, h2, ?_⟩
  rw [h1, h2]
  simp only [ne_eq, Option.some.injEq]
  exact fun h => hfresh h.symm

/-- Toy byte encoding of a token for the witness cipher. -/
def encodeChars (m : String) : List Nat := m.toList.map Char.toNat

/-- Concrete AEAD instance for the witness: ciphertext is the nonce followed
by the encoded token; decryption checks the nonce prefix. -/
def toyAead : Aead :=
  { encrypt := fun n m => n ++ encodeChars m
    decrypt := fun n c =>
      if n.isPrefixOf c then some (String.mk ((c.drop n.length).map Char.ofNat)) else none }

theorem toyAead_roundtrip (n : List Nat) (m : String) :
    toyAead.decrypt n (toyAead.encrypt n m) = some m := by
  cases m with
  | mk data =>
      have hpre : n.isPrefixOf (n ++ encodeChars (String.mk data)) = true := by
        rw [List.isPrefixOf_iff_prefix]
        exact List.prefix_append n _
      have hmap : List.map (Char.ofNat ∘ Char.toNat) data = data := by
        induction data with
        | nil => rfl
        | cons c cs ih => simp [Function.comp, Char.ofNat_toNat, ih]
      simp [toyAead, hpre, encodeChars, List.drop_left, List.map_map, String.toList, hmap]

/-- Empty credential table with a nonce supply whose draws are all distinct. -/
def stC5 : CredState :=
  { db := fun _ => none, rng := fun i => [i], rngIdx := 0 }

/-- Witness for C5: the round trip at a concrete store, token and cipher. -/
theorem C5_credential_roundtrip_fresh_nonce_witness :
    get_token toyAead (set_token toyAead stC5 .OpenAI "sk-token" 5) .OpenAI
      = .ok (some "sk-token") :=
  (C5_credential_roundtrip_fresh_nonce toyAead stC5 .OpenAI "sk-token" 5 6
    toyAead_roundtrip (by decide)).1

/-! Adapter constructors (C8), from src/providers/. -/

/-- Validity of an HTTP header value as enforced by the http crate behind
reqwest header::HeaderValue::from_str: every byte is 32..255 except DEL, or
horizontal tab. -/
def headerValueValid (s : String) : Bool :=
  s.toList.all (fun c => (32 ≤ c.toNat && c.toNat ≠ 127) || c.toNat = 9)

/-- Rust str trim_end_matches with a slash pattern. -/
def trimEndSlashes (s : String) : String :=
  String.mk ((s.toList.reverse.dropWhile (fun c => c = '/')).reverse)

/-- HuggingFaceClient from src/providers/hugging_face.rs (the configured
state the constructor keeps besides the HTTP client). -/
structure HuggingFaceClient where
  base_url : String
deriving DecidableEq, Repr

/-- HuggingFaceClient::new: builds an Authorization header Bearer value from
the key; the only failure is an invalid header value (an empty key still
yields the valid value Bearer followed by a space). -/
def HuggingFaceClient.new (api_key base_url : String) :
    Except AppError HuggingFaceClient :=
  if headerValueValid ("Bearer " ++ api_key) then
    .ok { base_url := trimEndSlashes base_url }
  else .error (.ConfigError "Invalid Hugging Face token")

/-- GoogleClient from src/providers/google.rs. -/
structure GoogleClient where
  api_key : String
  base_url : String
deriving DecidableEq, Repr

/-- GoogleClient::new: no validation of the key at all. -/
def GoogleClient.new (api_key base_url : String) : Except AppError GoogleClient :=
  .ok { api_key := api_key, base_url := trimEndSlashes base_url }

/-- OpenAIClient from src/providers/openai.rs. -/
structure OpenAIClient where
  api_key : String
  base_url : String
deriving DecidableEq, Repr

/-- OpenAIClient::new: infallible, no validation of the key. -/
def OpenAIClient.new (api_key base_url : String) : OpenAIClient :=
  { api_key := api_key, base_url := base_url }

/-- GroqClient from src/providers/groq.rs. -/
structure GroqClient where
  api_key : String
  base_url : String
deriving DecidableEq, Repr

/-- GroqClient::new: rejects an empty or whitespace-only key. -/
def GroqClient.new (api_key base_url : String) : Except AppError GroqClient :=
  if (trimChars api_key.toList).isEmpty then
    .error (.ConfigError "Groq API key cannot be empty")
  else .ok { api_key := api_key, base_url := base_url }

/-- DeepSeekClient from src/providers/deepseek.rs. -/
structure DeepSeekClient where
  api_key : String
  base_url : String
deriving DecidableEq, Repr

/-- DeepSeekClient::new: rejects an empty or whitespace-only key. -/
def DeepSeekClient.new (api_key base_url : String) : Except AppError DeepSeekClient :=
  if (trimChars api_key.toList).isEmpty then
    .error (.ConfigError "DeepSeek API key cannot be empty")
  else .ok { api_key := api_key, base_url := base_url }

/-- TogetherClient from src/providers/together.rs. -/
structure TogetherClient where
  api_key : String
  base_url : String
deriving DecidableEq, Repr

/-- TogetherClient::new: rejects an empty or whitespace-only key. -/
def TogetherClient.new (api_key base_url : String) : Except AppError TogetherClient :=
  if (trimChars api_key.toList).isEmpty then
    .error (.ConfigError "Together AI API key cannot be empty")
  else .ok { api_key := api_key, base_url := base_url }

/-- CloudflareClient from src/providers/cloudflare.rs. -/
structure CloudflareClient where
  api_key : String
  base_url : String
deriving DecidableEq, Repr

/-- CloudflareClient::new: rejects an empty or whitespace-only key. -/
def CloudflareClient.new (api_key base_url : String) : Except AppError CloudflareClient :=
  if (trimChars api_key.toList).isEmpty then
    .error (.ConfigError "Cloudflare API key cannot be empty")
  else .ok { api_key := api_key, base_url := base_url }

/-- CerebrasClient from src/providers/cerebras.rs. -/
structure CerebrasClient where
  api_key : String
  base_url : String
deriving DecidableEq, Repr

/-- CerebrasClient::new: rejects an empty or whitespace-only key. -/
def CerebrasClient.new (api_key base_url : String) : Except AppError CerebrasClient :=
  if (trimChars api_key.toList).isEmpty then
    .error (.ConfigError "Cerebras API key cannot be empty")
  else .ok { api_key := api_key, base_url := base_url }

/-- MistralClient from src/providers/mistral.rs. -/
structure MistralClient where
  api_key : String
  base_url : String
deriving DecidableEq, Repr

/-- MistralClient::new: rejects an empty or whitespace-only key. -/
def MistralClient.new (api_key base_url : String) : Except AppError MistralClient :=
  if (trimChars api_key.toList).isEmpty then
    .error (.ConfigError "Mistral API key cannot be empty")
  else .ok { api_key := api_key, base_url := base_url }

/-- ClarifaiClient from src/providers/clarifai.rs. -/
structure ClarifaiClient where
  api_key : String
  base_url : String
deriving DecidableEq, Repr

/-- ClarifaiClient::new: rejects an empty or whitespace-only key. -/
def ClarifaiClient.new (api_key base_url : String) : Except AppError ClarifaiClient :=
  if (trimChars api_key.toList).isEmpty then
    .error (.ConfigError "Clarifai API key cannot be empty")
  else .ok { api_key := api_key, base_url := base_url }

/-- GitHubModelsClient from src/providers/github_models.rs. -/
structure GitHubModelsClient where
  github_token : String
  base_url : String
deriving DecidableEq, Repr

/-- GitHubModelsClient::new: rejects an empty or whitespace-only token. -/
def GitHubModelsClient.new (github_token base_url : String) :
    Except AppError GitHubModelsClient :=
  if (trimChars github_token.toList).isEmpty then
    .error (.ConfigError "GitHub token cannot be empty")
  else .ok { github_token := github_token, base_url := base_url }

/-- OpenRouterClient from src/providers/openrouter.rs. -/
structure OpenRouterClient where
  api_key : String
  base_url : String
deriving DecidableEq, Repr

/-- OpenRouterClient::new: rejects an empty or whitespace-only key. -/
def OpenRouterClient.new (api_key base_url : String) : Except AppError OpenRouterClient :=
  if (trimChars api_key.toList).isEmpty then
    .error (.ConfigError "OpenRouter API key cannot be empty")
  else .ok { api_key := api_key, base_url := base_url }

/-- C8 counterexample: the Google and HuggingFace constructors accept the
empty api_key (and the OpenAI constructor is not even fallible), so it is
false that every adapter constructor rejects an empty key with ConfigError. -/
theorem C8_counterexample_empty_key_accepted :
    GoogleClient.new "" "https://example" = .ok { api_key := "", base_url := "https://example" }
      ∧ HuggingFaceClient.new "" "https://example" = .ok { base_url := "https://example" }
      ∧ OpenAIClient.new "" "https://example"
          = { api_key := "", base_url := "https://example" } :=
  ⟨rfl, rfl, rfl⟩

/-- C8 amended: for an empty or whitespace-only api_key, the Groq, DeepSeek,
Together, Cloudflare, Cerebras, Mistral, Clarifai, GitHubModels and
OpenRouter constructors fail with ConfigError, while the Google constructor
succeeds unconditionally, the HuggingFace constructor succeeds whenever the
derived Bearer header value is valid (as it is for the empty key), and the
OpenAI constructor is infallible. -/
theorem C8_adapter_key_validation (key url : String)
    (h : trimChars key.toList = []) :
    GoogleClient.new key url = .ok { api_key := key, base_url := trimEndSlashes url }
      ∧ (headerValueValid ("Bearer " ++ key) = true →
          HuggingFaceClient.new key url = .ok { base_url := trimEndSlashes url })
      ∧ OpenAIClient.new key url = { api_key := key, base_url := url }
      ∧ GroqClient.new key url = .error (.ConfigError "Groq API key cannot be empty")
      ∧ DeepSeekClient.new key url = .error (.ConfigError "DeepSeek API key cannot be empty")
      ∧ TogetherClient.new key url
          = .error (.ConfigError "Together AI API key cannot be empty")
      ∧ CloudflareClient.new key url
          = .error (.ConfigError "Cloudflare API key cannot be empty")
      ∧ CerebrasClient.new key url = .error (.ConfigError "Cerebras API key cannot be empty")
      ∧ MistralClient.new key url = .error (.ConfigError "Mistral API key cannot be empty")
      ∧ ClarifaiClient.new key url = .error (.ConfigError "Clarifai API key cannot be empty")
      ∧ GitHubModelsClient.new key url = .error (.ConfigError "GitHub token cannot be empty")
      ∧ OpenRouterClient.new key url
          = .error (.ConfigError "OpenRouter API key cannot be empty") := by
  have h2 : trimChars key.data = [] := h
  refine ⟨rfl, ?_, rfl, ?_, ?_, ?_, ?_, ?_, ?_, ?_, ?_, ?_⟩
  · intro hv
    simp [HuggingFaceClient.new, hv]
  all_goals simp [GroqClient.new, DeepSeekClient.new, TogetherClient.new,
    CloudflareClient.new, CerebrasClient.new, MistralClient.new, ClarifaiClient.new,
    GitHubModelsClient.new, OpenRouterClient.new, h2]

/-- Witness for C8 amended: the empty key at a concrete url. -/
theorem C8_adapter_key_validation_witness :
    GoogleClient.new "" "u" = .ok { api_key := "", base_url := "u" }
      ∧ GroqClient.new "" "u" = .error (.ConfigError "Groq API key cannot be empty") :=
  ⟨(C8_adapter_key_validation "" "u" rfl).1,
    (C8_adapter_key_validation "" "u" rfl).2.2.2.1⟩

/-! Usage statistics (C9), from src/catalog.rs usage_stats over the
provider_usage and provider_models tables. -/

/-- Row of provider_usage, from src/usage.rs log (token and cost columns
omitted: the aggregate reads none of them). -/
structure UsageRow where
  provider : Provider
  model : Option String
  success : Bool
  latency_ms : Int
  error_message : Option String := none
  created_at : Int := 0
deriving DecidableEq, Repr

/-- UsageStats from src/catalog.rs; the floating aggregates are exact
rationals here. -/
structure UsageStats where
  total_calls : Int
  successful_calls : Int
  success_rate : Rat
  avg_latency_ms : Rat
  max_latency_ms : Int
deriving DecidableEq, Repr

/-- The correlated subquery of usage_stats: SELECT model FROM provider_models
WHERE provider = ? AND workload = ? — note it carries no status filter. -/
def model_in_roster (p : Provider) (w2 : Workload) (models : List ModelEntry)
    (m : String) : Bool :=
  models.any (fun pm =>
    decide (pm.provider = p) && decide (pm.workload = w2) && decide (pm.model = m))

/-- Row filter of the usage_stats query: provider equality, and under a
workload scope membership of the model in the subquery result (a NULL model
never satisfies IN). -/
def usage_row_counted (p : Provider) (w : Option Workload) (models : List ModelEntry)
    (row : UsageRow) : Bool :=
  decide (row.provider = p) &&
    match w with
    | none => true
    | some w2 =>
        match row.model with
        | none => false
        | some m => model_in_roster p w2 models m

/-- CatalogStore.usage_stats from src/catalog.rs: COUNT, success SUM, AVG and
MAX over the filtered rows; the NULL aggregates of an empty selection become
0 through the unwrap_or calls. -/
def usage_stats (p : Provider) (w : Option Workload) (usage : List UsageRow)
    (models : List ModelEntry) : UsageStats :=
  let rows := usage.filter (usage_row_counted p w models)
  let total : Int := rows.length
  let successful : Int := (rows.filter (fun r => r.success)).length
  let success_rate : Rat :=
    if total > 0 then ((successful : Rat) / (total : Rat)) * 100 else 0
  let avg : Rat :=
    match rows with
    | [] => 0
    | _ :: _ => ((rows.map (fun r => (r.latency_ms : Rat))).sum) / (rows.length : Rat)
  let mx : Int :=
    match rows.map (fun r => r.latency_ms) with
    | [] => 0
    | x :: xs => xs.foldl max x
  { total_calls := total
    successful_calls := successful
    success_rate := success_rate
    avg_latency_ms := avg
    max_latency_ms := mx }

/-- Retired roster row for the C9 counterexample. -/
def pmRetired : ModelEntry :=
  { provider := .Groq, workload := .Chat, model := "llama-x", status := "retired"
    priority := 10 }

/-- Usage row recorded against the retired model. -/
def usageRowC9 : UsageRow :=
  { provider := .Groq, model := some "llama-x", success := true, latency_ms := 100 }

/-- C9 counterexample: a call recorded with a model whose provider_models row
is retired is still counted by the workload-scoped stats (total, successes
and latency aggregates all include it), because the subquery has no status
filter; the claim expects these rows to be excluded. -/
theorem C9_counterexample_retired_still_counted :
    pmRetired.status = "retired"
      ∧ (usage_stats .Groq (some .Chat) [usageRowC9] [pmRetired]).total_calls = 1
      ∧ (usage_stats .Groq (some .Chat) [usageRowC9] [pmRetired]).successful_calls = 1
      ∧ (usage_stats .Groq (some .Chat) [usageRowC9] [pmRetired]).max_latency_ms = 100 := by
  refine ⟨rfl, by decide, by decide, by decide⟩

theorem model_in_roster_status_blind (p : Provider) (w2 : Workload)
    (f : ModelEntry → String) (m : String) :
    ∀ models : List ModelEntry,
      model_in_roster p w2 (models.map (fun e => { e with status := f e })) m
        = model_in_roster p w2 models m := by
  intro models
  induction models with
  | nil => rfl
  | cons a as ih =>
      simp only [model_in_roster, List.map_cons, List.any_cons] at ih ⊢
      rw [ih]

/-- C9 amended: the workload scope of usage_stats restricts to models that
have any provider_models row for the provider and workload, regardless of the
row status: changing every status (for example retiring models) never changes
the statistics, so usage of retired-but-registered models stays counted and
only models with no row at all are excluded. -/
theorem C9_usage_stats_ignores_status (p : Provider) (w : Option Workload)
    (usage : List UsageRow) (models : List ModelEntry) (f : ModelEntry → String) :
    usage_stats p w usage (models.map (fun e => { e with status := f e }))
      = usage_stats p w usage models := by
  have hrow : ∀ row, usage_row_counted p w (models.map (fun e => { e with status := f e })) row
      = usage_row_counted p w models row := by
    intro row
    cases w with
    | none => rfl
    | some w2 =>
        cases hm : row.model with
        | none => simp [usage_row_counted, hm]
        | some m => simp [usage_row_counted, hm, model_in_roster_status_blind]
  have hfilter : usage.filter
      (usage_row_counted p w (models.map (fun e => { e with status := f e })))
        = usage.filter (usage_row_counted p w models) :=
    List.filter_congr (fun a _ => hrow a)
  unfold usage_stats
  rw [hfilter]
